import Mathlib

/-
Verification development for the PAID repository (a voice-driven product-design
assistant).  The Python sources under src/paid are shallowly embedded as Lean
definitions: JSON values become an inductive type, the SQLite-backed store
becomes an explicit record of append-only lists, callbacks become pure state
transformers, and code that can raise returns `Except PyError`.  External
library calls whose behaviour is not part of the repository (the json
module's `loads`/`dumps`, the hosted model providers) are passed in as
function parameters; everything else is translated directly from the source.
-/

set_option linter.unusedVariables false

/-- Python values produced by `json.loads`: the JSON data model.  Numbers are
modelled as integers (no claim involves fractional numbers). -/
inductive PyJson where
  | null
  | bool (b : Bool)
  | num (n : Int)
  | str (s : String)
  | arr (elems : List PyJson)
  | obj (fields : List (String × PyJson))

/-- Python exceptions that the embedded code can raise. -/
inductive PyError where
  | valueError (msg : String)
  | typeError (msg : String)
  | keyError (msg : String)
  | attributeError (msg : String)
deriving DecidableEq

/-- Python truthiness (`bool(x)`) on JSON values: `None`, `False`, `0`, `""`,
`[]` and `{}` are falsy, everything else is truthy. -/
def pyTruthy : PyJson → Bool
  | .null => false
  | .bool b => b
  | .num n => n != 0
  | .str s => s != ""
  | .arr elems => !elems.isEmpty
  | .obj fields => !fields.isEmpty

/-- Python `x or default` for an optional JSON value (`None` and falsy values
fall through to the default). -/
def pyOrJson (x : Option PyJson) (dflt : PyJson) : PyJson :=
  match x with
  | none => dflt
  | some j => if pyTruthy j then j else dflt

/-- Python `x or default` for an optional string (`None` and `""` fall through
to the default). -/
def pyOrString (x : Option String) (dflt : String) : String :=
  match x with
  | none => dflt
  | some s => if s = "" then dflt else s

/-- Characters matched by the regex class `\s` (and stripped by `str.strip`)
on the ASCII inputs the program handles. -/
def isPySpace (c : Char) : Bool :=
  c = ' ' || c = '\t' || c = '\n' || c = '\r' || c = '\x0b' || c = '\x0c'

/-- Removal of trailing whitespace from a character list. -/
def dropTrailingSpace (l : List Char) : List Char :=
  (l.reverse.dropWhile isPySpace).reverse

/-- Python `str.strip()`: remove leading and trailing whitespace. -/
def pyStrip (s : String) : String :=
  String.mk (dropTrailingSpace (s.toList.dropWhile isPySpace))

/-- Auxiliary check that a character list starts with a given pattern. -/
def listStartsWith (pat l : List Char) : Bool :=
  l.take pat.length = pat

/-- Auxiliary check that a character list contains a pattern as a contiguous
sublist. -/
def listHasSub (pat : List Char) : List Char → Bool
  | [] => pat.isEmpty
  | c :: cs => listStartsWith pat (c :: cs) || listHasSub pat cs

/-- Substring containment on strings (Python `needle in haystack`). -/
def containsStr (haystack needle : String) : Bool :=
  listHasSub needle.toList haystack.toList

/-- Speaker roles recorded in the conversation table (`'user'` or `'agent'`). -/
inductive Speaker where
  | user
  | agent
deriving DecidableEq, BEq

/-- Row of the `DesignState` table (models.py): a design-state snapshot tied
to a session, holding the JSON state and a nullable instruction-text column.
Creation order is the position in `DB.states`. -/
structure StateRec where
  session : String
  state : PyJson
  instructions : Option String

/-- Row of the `Conversation` table (models.py): a transcript message tied to
a session.  Timestamp order is the position in `DB.messages`. -/
structure MsgRec where
  session : String
  speaker : Speaker
  message : String

/-- The embedded database: sessions, append-only design-state snapshots and
the append-only conversation transcript. -/
structure DB where
  sessions : List String
  states : List StateRec
  messages : List MsgRec

/-- Referential integrity of the store: every snapshot and every message
belongs to an existing session. -/
def DB.wf (db : DB) : Prop :=
  (∀ r ∈ db.states, r.session ∈ db.sessions) ∧
  (∀ m ∈ db.messages, m.session ∈ db.sessions)

/-- Embedding of operations.py `get_session`: a lookup that reports whether
the session row exists. -/
def get_session (db : DB) (session_id : String) : Bool :=
  db.sessions.contains session_id

/-- Embedding of operations.py `update_design_state(session_id, state)`: it
raises `ValueError` when the session does not exist, otherwise appends a new
snapshot.  The definition in src takes exactly these two data arguments and
leaves the nullable `instructions` column unset. -/
def update_design_state (db : DB) (session_id : String) (state : PyJson) :
    Except PyError DB :=
  if get_session db session_id then
    .ok { db with states := db.states ++ [⟨session_id, state, none⟩] }
  else
    .error (.valueError ("Session with ID " ++ session_id ++ " does not exist"))

/-- Latest snapshot row of a session: the snapshots ordered by `created_at`
descending, first row (i.e. the most recently appended one). -/
def latestStateRec (db : DB) (session_id : String) : Option StateRec :=
  (db.states.filter (fun r => r.session == session_id)).getLast?

/-- Embedding of operations.py `get_latest_design_state`: `None` when the
session is missing or has no snapshots, otherwise the JSON state of the most
recently created snapshot. -/
def get_latest_design_state (db : DB) (session_id : String) : Option PyJson :=
  if get_session db session_id then
    (latestStateRec db session_id).map (fun r => r.state)
  else
    none

/-- Embedding of operations.py `add_conversation_message`: raises
`ValueError` when the session does not exist, otherwise appends the message
to the transcript. -/
def add_conversation_message (db : DB) (session_id : String) (speaker : Speaker)
    (message : String) : Except PyError DB :=
  if get_session db session_id then
    .ok { db with messages := db.messages ++ [⟨session_id, speaker, message⟩] }
  else
    .error (.valueError ("Session with ID " ++ session_id ++ " does not exist"))

/-- Embedding of operations.py `get_conversation_history`: the transcript of
a session in timestamp order, empty when the session is missing. -/
def get_conversation_history (db : DB) (session_id : String) : List MsgRec :=
  if get_session db session_id then
    db.messages.filter (fun m => m.session == session_id)
  else
    []

/-- Modelled from the spec: `paid.database.get_latest_instructions` is
imported and called by design_agent.py and anthropic_deepgram_agent.py but is
defined nowhere under src/ (neither operations.py nor the package
`__init__.py` provides it).  Spec section 3 stores each snapshot as a JSON
document plus an optional instruction-text blob with "latest" defined by
creation order, and section 4.3 reads the previous guidance text back from
the store; accordingly this returns the instruction text attached to the
latest snapshot of the session, if any. -/
def get_latest_instructions (db : DB) (session_id : String) : Option String :=
  match latestStateRec db session_id with
  | none => none
  | some r => r.instructions

/-- Embedding of defaults.py `DEFAULT_DESIGN_STATE`: the default empty design
state structure. -/
def DEFAULT_DESIGN_STATE : PyJson :=
  .obj [("Paid", .obj [
    ("meta", .obj [
      ("title", .str ""),
      ("createdAt", .str ""),
      ("updatedAt", .str "")]),
    ("problem", .obj [
      ("statement", .str ""),
      ("currentSolutions", .str ""),
      ("painPoints", .arr [])]),
    ("users", .obj [
      ("personas", .arr [
        .obj [
          ("name", .str ""),
          ("demographics", .str ""),
          ("behaviors", .str ""),
          ("jobsToBeDone", .arr []),
          ("frustrations", .arr [])]])]),
    ("valueProposition", .obj [
      ("oneLiner", .str ""),
      ("primaryBenefit", .str ""),
      ("uniqueDifferentiators", .arr [])]),
    ("approach", .obj [
      ("coreConcept", .str ""),
      ("mvpFeatures", .arr []),
      ("technicalConsiderations", .arr [])]),
    ("userExperience", .obj [
      ("summary", .str ""),
      ("userFlows", .arr [
        .obj [
          ("flowName", .str ""),
          ("description", .str ""),
          ("steps", .arr [
            .obj [
              ("step", .num 1),
              ("name", .str ""),
              ("description", .str "")]])]])])])]

/-- Piece 1 of the instruction template text (see DEFAULT_INSTRUCTIONS_TEMPLATE). -/
def tplChunk1 : String :=
  "\nYou are PAID, an expert product management and design thinking assistant. Your purpose is to guide users through a thoughtful product design process based on IDEO and Stanford design school principles before they begin implementation.\n\nCORE APPROACH:\nYou ask thoughtful questions to help the user think deeply about what they are building and why they are building it.\n"

/-- Piece 2 of the instruction template text (see DEFAULT_INSTRUCTIONS_TEMPLATE). -/
def tplChunk2 : String :=
  "Your goal is to ensure they\x27ve deeply considered their product from multiple angles before building.\n\nCONVERSATION STYLE:\n- Keep your responses under 3 sentences\n- Ask only one question at a time\n- Maintain a 20/80 speaking ratio (you speak 20%, user speaks 80%)\n- Listen patiently without interrupting the user\x27s thought process\n"

/-- Piece 3 of the instruction template text (see DEFAULT_INSTRUCTIONS_TEMPLATE). -/
def tplChunk3 : String :=
  "- Use silence strategically - give users space to think\n- Avoid lengthy explanations or theoretical frameworks\n- Be warm but concise in your responses\n- Use brief acknowledgments to show understanding without overusing affirmation\n\nWORKFLOW:\n- Begin with a concise introduction (2-3 sentences max)\n- Ask a single focused question related to one JSON field\n"

/-- Piece 4 of the instruction template text (see DEFAULT_INSTRUCTIONS_TEMPLATE). -/
def tplChunk4 : String :=
  "- Wait for complete user response before asking the next question\n- Acknowledge the user\x27s input briefly before moving to the next question\n- After 2-3 exchanges on a topic, gently transition to a new section\n- If a user struggles with a question, offer a simple \"We can explore this more later\" and move on\n"

/-- Piece 5 of the instruction template text (see DEFAULT_INSTRUCTIONS_TEMPLATE). -/
def tplChunk5 : String :=
  "- Ensure all key sections receive attention rather than deep-diving into one area\n- Only provide suggestions if explicitly requested\n\nTOPIC MANAGEMENT:\n- Balance depth and breadth across all major sections of the JSON structure\n- Use natural transitions between topics (\"Now I\x27m curious about...\")\n- When a topic reaches diminishing returns, move to the next area\n"

/-- Piece 6 of the instruction template text (see DEFAULT_INSTRUCTIONS_TEMPLATE). -/
def tplChunk6 : String :=
  "- If the user has incomplete thoughts on a topic, make a mental note and continue forward\n- Aim for an efficient conversation that covers all key product aspects\n\nEXISTING INFORMATION:\n- If any fields in the JSON structure are already filled out, treat this as information from previous conversations\n- Reference this existing information naturally when relevant to new questions\n"

/-- Piece 7 of the instruction template text (see DEFAULT_INSTRUCTIONS_TEMPLATE). -/
def tplChunk7 : String :=
  "- Focus your questions on unfilled areas of the JSON structure\n- You can briefly acknowledge what you already know before asking about new areas\n- Never ask the user to repeat information that\x27s already captured in the JSON\n\nJSON STRUCTURE:\n- This JSON structure is the information that we care about capturing.\n"

/-- Piece 8 of the instruction template text (see DEFAULT_INSTRUCTIONS_TEMPLATE). -/
def tplChunk8 : String :=
  "- You will ask one question at a time that helps get information from the user to fill out this JSON.\n- Never mention the JSON structure directly in conversation.\n- Track which fields have been addressed in your internal thinking.\n\nCURRENT STATE:\n"

/-- The single replacement field of the instruction template. -/
def tplField : String := "{design_state_json}"

/-- Text of the instruction template after its replacement field. -/
def tplPost : String := "\n"

/-- Text of the instruction template before its replacement field. -/
def TPL_PREFIX : String :=
  tplChunk1 ++ tplChunk2 ++ tplChunk3 ++ tplChunk4 ++ tplChunk5 ++ tplChunk6 ++ tplChunk7 ++ tplChunk8

/-- Embedding of defaults.py `DEFAULT_INSTRUCTIONS_TEMPLATE`, the static
system-instruction template for the voice agent.  The text is given as the
concatenation of brace-free pieces around the single replacement field
\x7bdesign_state_json\x7d; the concatenation is character-for-character the
template of the source file (apostrophes written with the escape \x27).
Note that the template has no \x7bcustom_instructions\x7d field. -/
def DEFAULT_INSTRUCTIONS_TEMPLATE : String :=
  TPL_PREFIX ++ tplField ++ tplPost

/-- In-memory state of the turn-buffering bridge
(anthropic_deepgram_agent.py): the accumulating user transcript, the
accumulating agent response, and who spoke last. -/
structure BridgeState where
  current_user_transcript : String
  current_agent_response : String
  last_speaker : Option Speaker
deriving DecidableEq

/-- Initial bridge state as set in `AnthropicDeepgramAgent.__init__`. -/
def initBridge : BridgeState := ⟨"", "", none⟩

/-- Embedding of `AnthropicDeepgramAgent._handle_user_transcript`.  The
second component lists the conversation messages persisted (the
`add_conversation_message` calls made) by this callback, in order: a user
fragment is only buffered, never persisted. -/
def handleUserTranscript (st : BridgeState) (text : String) :
    BridgeState × List (Speaker × String) :=
  if st.last_speaker = some Speaker.agent ∨ st.last_speaker = none then
    ({ st with current_user_transcript := text, last_speaker := some Speaker.user }, [])
  else
    ({ st with current_user_transcript := st.current_user_transcript ++ " " ++ text }, [])

/-- Embedding of `AnthropicDeepgramAgent._handle_agent_response`.  When the
last speaker was the user, the callback first persists the completed user
buffer, starts the agent buffer with this fragment, and then (after the
conditional) persists that initial agent response; otherwise it appends to
the agent buffer and returns early, persisting nothing.  The background
design-state refresh thread spawned in the first branch writes design-state
snapshots, not conversation messages, so it does not contribute here. -/
def handleAgentResponse (st : BridgeState) (response : String) :
    BridgeState × List (Speaker × String) :=
  if st.last_speaker = some Speaker.user then
    ({ st with current_agent_response := response, last_speaker := some Speaker.agent },
      [(Speaker.user, st.current_user_transcript), (Speaker.agent, response)])
  else
    ({ st with current_agent_response := st.current_agent_response ++ " " ++ response }, [])

/-- Embedding of `AnthropicDeepgramAgent.stop`: persists the accumulated
agent response only when the last speaker was the agent and the buffer is
non-empty (Python string truthiness), then resets all buffers. -/
def stopBridge (st : BridgeState) : BridgeState × List (Speaker × String) :=
  let flushed :=
    if st.last_speaker = some Speaker.agent ∧ st.current_agent_response ≠ "" then
      [(Speaker.agent, st.current_agent_response)]
    else
      []
  (⟨"", "", none⟩, flushed)

/-- Fragment events delivered to the bridge by the hosted conversation
session. -/
inductive BridgeEvent where
  | userFrag (text : String)
  | agentFrag (response : String)
deriving DecidableEq

/-- Dispatch of one fragment event to the matching callback. -/
def stepEvent (st : BridgeState) : BridgeEvent → BridgeState × List (Speaker × String)
  | .userFrag t => handleUserTranscript st t
  | .agentFrag r => handleAgentResponse st r

/-- Run of a sequence of fragment events from a given bridge state, collecting
every conversation message persisted along the way in order. -/
def runEvents (st : BridgeState) : List BridgeEvent → BridgeState × List (Speaker × String)
  | [] => (st, [])
  | e :: es =>
    let out := stepEvent st e
    let rest := runEvents out.1 es
    (rest.1, out.2 ++ rest.2)

/-- Backtick character, used by the fenced-code-block regex. -/
def btick : Char := Char.ofNat 96

/-- Split of a character list at the first occurrence of three consecutive
backticks, returning the text before the fence and the text after it. -/
def fenceSplit : List Char → Option (List Char × List Char)
  | [] => none
  | c :: cs =>
    if c = btick ∧ cs.take 2 = [btick, btick] then
      some ([], cs.drop 2)
    else
      match fenceSplit cs with
      | none => none
      | some (pre, post) => some (c :: pre, post)

/-- Semantics of `re.search` with the design agent's pattern: an opening
triple-backtick fence, an optional literal `json` tag, greedy leading
whitespace, a lazy group, greedy trailing whitespace and a closing fence.
The leftmost match yields the text between the fences with the optional tag
and the surrounding whitespace removed; if the text holds fewer than two
fences there is no match. -/
def regexFencedGroup (text : String) : Option String :=
  match fenceSplit text.toList with
  | none => none
  | some (_, rest) =>
    let rest1 := if listStartsWith "json".toList rest then rest.drop 4 else rest
    let rest2 := rest1.dropWhile isPySpace
    match fenceSplit rest2 with
    | none => none
    | some (mid, _) => some (String.mk (dropTrailingSpace mid))

/-- Embedding of `DesignAgent._extract_json`: take the fenced group if the
regex matches, otherwise the whole text, and hand it to `json.loads` (the
stdlib parser, passed in as `loads`); a parse failure is reported as `none`
instead of an empty default state. -/
def extract_json (loads : String → Option PyJson) (text : String) : Option PyJson :=
  let json_str :=
    match regexFencedGroup text with
    | some g => g
    | none => text
  loads json_str

/-- Number of parameters of `update_design_state` as defined in
operations.py: `(session_id, state)`. -/
def update_design_state_param_count : Nat := 2

/-- Number of positional arguments passed to `update_design_state` at the
save step of `DesignAgent.process` (design_agent.py line 82). -/
def design_agent_save_arg_count : Nat := 3

/-- Embedding of the call `update_design_state(session_id, updated_state,
custom_instructions)` made by `DesignAgent.process`: in Python, calling a
two-parameter function with three positional arguments raises `TypeError`
before the function body runs, so the snapshot write is reached only if the
argument count matches the parameter count. -/
def update_design_state_call3 (db : DB) (session_id : String) (state : PyJson)
    (instructions : String) : Except PyError DB :=
  if design_agent_save_arg_count = update_design_state_param_count then
    update_design_state db session_id state
  else
    .error (.typeError "update_design_state takes 2 positional arguments but 3 were given")

/-- Names exported by the paid.database package (its `__init__.py`). -/
def paid_database_exports : List String :=
  ["DesignSession", "DesignState", "Conversation", "setup_database",
   "create_session", "get_session", "update_design_state",
   "get_latest_design_state", "add_conversation_message",
   "get_conversation_history"]

/-- Names that design_agent.py line 5 imports from paid.database. -/
def design_agent_database_imports : List String :=
  ["get_conversation_history", "update_design_state",
   "get_latest_design_state", "get_latest_instructions"]

/-- Embedding of `DesignAgent.process`.  The two hosted-model calls are
external: their replies are the parameters `design_response` (the
design-state extraction reply) and `instruction_response` (the
instruction-refresh reply), and `loads` stands for `json.loads`.  The result
pairs the returned state with the database after the call; exceptions
propagate as errors. -/
def DesignAgent_process (loads : String → Option PyJson)
    (design_response instruction_response : String) (db : DB)
    (session_id : String) : Except PyError (PyJson × DB) :=
  let current_state := pyOrJson (get_latest_design_state db session_id) DEFAULT_DESIGN_STATE
  let previous_custom_instructions := get_latest_instructions db session_id
  let conversation := get_conversation_history db session_id
  match extract_json loads design_response with
  | none =>
    .ok (current_state, db)
  | some updated_state =>
    let custom_instruction_text := pyStrip instruction_response
    let custom_instructions :=
      if custom_instruction_text.startsWith "NO_CHANGE:" then
        pyOrString previous_custom_instructions ""
      else
        custom_instruction_text
    match update_design_state_call3 db session_id updated_state custom_instructions with
    | .error e => .error e
    | .ok db2 => .ok (updated_state, db2)

/-- Opening brace character. -/
def lbrace : Char := Char.ofNat 123

/-- Closing brace character. -/
def rbrace : Char := Char.ofNat 125

/-- Modes of the `str.format` scanning loop: plain text, just after an
opening brace, just after a closing brace, or inside a replacement field
(accumulating the reversed field name). -/
inductive FmtMode where
  | normal
  | sawLbrace
  | sawRbrace
  | field (acc : List Char)

/-- Core loop of Python `str.format` restricted to named replacement fields
(the only kind the template uses): text is copied, doubled braces escape a
brace, a field \x7bname\x7d is replaced by the keyword argument `name`
(raising `KeyError` when the name was not supplied), and keyword arguments
whose name never occurs in the template are silently ignored.  The output is
accumulated in reverse in `acc` so that every recursive call is a tail
call. -/
def formatGo (subs : List (String × String)) :
    FmtMode → List Char → List Char → Except PyError (List Char)
  | .normal, [], acc => .ok acc.reverse
  | .sawLbrace, [], _ => .error (.valueError "single brace encountered in format string")
  | .sawRbrace, [], _ => .error (.valueError "single brace encountered in format string")
  | .field _, [], _ => .error (.valueError "single brace encountered in format string")
  | .normal, c :: cs, acc =>
    if c = lbrace then
      formatGo subs .sawLbrace cs acc
    else if c = rbrace then
      formatGo subs .sawRbrace cs acc
    else
      formatGo subs .normal cs (c :: acc)
  | .sawLbrace, c :: cs, acc =>
    if c = lbrace then
      formatGo subs .normal cs (lbrace :: acc)
    else if c = rbrace then
      match List.lookup "" subs with
      | some v => formatGo subs .normal cs (v.toList.reverse ++ acc)
      | none => .error (.keyError "")
    else
      formatGo subs (.field [c]) cs acc
  | .sawRbrace, c :: cs, acc =>
    if c = rbrace then
      formatGo subs .normal cs (rbrace :: acc)
    else
      .error (.valueError "single brace encountered in format string")
  | .field nm, c :: cs, acc =>
    if c = rbrace then
      match List.lookup (String.mk nm.reverse) subs with
      | some v => formatGo subs .normal cs (v.toList.reverse ++ acc)
      | none => .error (.keyError (String.mk nm.reverse))
    else
      formatGo subs (.field (c :: nm)) cs acc

/-- Python `template.format(name=value, ...)` with named fields. -/
def pythonFormat (s : String) (subs : List (String × String)) : Except PyError String :=
  (fun l => String.mk l) <$> formatGo subs .normal s.toList []

/-- Embedding of `AnthropicDeepgramAgent._get_current_design_state`: the
latest stored state, or the default empty state when none exists (Python
truthiness of the result). -/
def get_current_design_state (db : DB) (session_id : String) : PyJson :=
  pyOrJson (get_latest_design_state db session_id) DEFAULT_DESIGN_STATE

/-- Embedding of `AnthropicDeepgramAgent._get_system_instructions`: formats
the current design state with `json.dumps` (the stdlib serializer, passed in
as `dumps`), reads any custom instructions from the database, and calls
`DEFAULT_INSTRUCTIONS_TEMPLATE.format(design_state_json=...,
custom_instructions=...)`. -/
def get_system_instructions (dumps : PyJson → String) (db : DB)
    (session_id : String) : Except PyError String :=
  let design_state := get_current_design_state db session_id
  let design_state_json := dumps design_state
  let custom_instructions := pyOrString (get_latest_instructions db session_id) ""
  pythonFormat DEFAULT_INSTRUCTIONS_TEMPLATE
    [("design_state_json", design_state_json),
     ("custom_instructions", custom_instructions)]

/-- Message text of a Python exception (`str(e)`). -/
def pyErrStr : PyError → String
  | .valueError m => m
  | .typeError m => m
  | .keyError m => m
  | .attributeError m => m

mutual

/-- Python `str(x)` on a JSON value as used by the f-strings of the export
module; containers are rendered with a simplified `repr` (quotes written
with the escape \x27, inner escaping omitted), which no claim depends on. -/
def pyStr : PyJson → String
  | .str s => s
  | .null => "None"
  | .bool true => "True"
  | .bool false => "False"
  | .num n => toString n
  | .arr elems => "[" ++ pyReprList elems ++ "]"
  | .obj fields => "\x7b" ++ pyReprFields fields ++ "\x7d"

/-- Rendering of list elements for `pyStr`. -/
def pyReprList : List PyJson → String
  | [] => ""
  | [x] => pyReprAtom x
  | x :: xs => pyReprAtom x ++ ", " ++ pyReprList xs

/-- Rendering of dict entries for `pyStr`. -/
def pyReprFields : List (String × PyJson) → String
  | [] => ""
  | [(k, v)] => "\x27" ++ k ++ "\x27: " ++ pyReprAtom v
  | (k, v) :: xs => "\x27" ++ k ++ "\x27: " ++ pyReprAtom v ++ ", " ++ pyReprFields xs

/-- Rendering of one value inside a container for `pyStr`. -/
def pyReprAtom : PyJson → String
  | .str s => "\x27" ++ s ++ "\x27"
  | .null => "None"
  | .bool true => "True"
  | .bool false => "False"
  | .num n => toString n
  | .arr elems => "[" ++ pyReprList elems ++ "]"
  | .obj fields => "\x7b" ++ pyReprFields fields ++ "\x7d"

end

/-- Python subscription `j[k]` with a string key. -/
def pyItem (j : PyJson) (k : String) : Except PyError PyJson :=
  match j with
  | .obj fields =>
    match List.lookup k fields with
    | some v => .ok v
    | none => .error (.keyError k)
  | .arr _ => .error (.typeError "list indices must be integers or slices, not str")
  | .str _ => .error (.typeError "string indices must be integers")
  | _ => .error (.typeError "object is not subscriptable")

/-- Python `j.get(k)`: `None` for a missing key, `AttributeError` when the
receiver is not a dict. -/
def pyGet (j : PyJson) (k : String) : Except PyError PyJson :=
  match j with
  | .obj fields => .ok ((List.lookup k fields).getD PyJson.null)
  | _ => .error (.attributeError "object has no attribute get")

/-- Python `==` between a JSON value and a string literal. -/
def jsonEqStr (j : PyJson) (s : String) : Bool :=
  match j with
  | .str t => t == s
  | _ => false

/-- Python `k in j` with a string operand: key lookup on dicts, membership
on lists, substring containment on strings, `TypeError` otherwise. -/
def pyContains (j : PyJson) (k : String) : Except PyError Bool :=
  match j with
  | .obj fields => .ok (fields.any (fun p => p.1 == k))
  | .arr elems => .ok (elems.any (fun e => jsonEqStr e k))
  | .str s => .ok (containsStr s k)
  | _ => .error (.typeError "argument is not iterable")

/-- Python `len(j)`. -/
def pyLen (j : PyJson) : Except PyError Nat :=
  match j with
  | .obj fields => .ok fields.length
  | .arr elems => .ok elems.length
  | .str s => .ok s.length
  | _ => .error (.typeError "object has no len")

/-- Python iteration `for x in j`: elements of a list, keys of a dict,
characters of a string, `TypeError` otherwise. -/
def pyIter (j : PyJson) : Except PyError (List PyJson) :=
  match j with
  | .arr elems => .ok elems
  | .obj fields => .ok (fields.map (fun p => PyJson.str p.1))
  | .str s => .ok (s.toList.map (fun c => PyJson.str (String.mk [c])))
  | _ => .error (.typeError "object is not iterable")

/-- Embedding of export.py `generate_md_from_design_state`.  The parameter
`now` stands for `datetime.now().strftime(...)`, used only when the state has
no `meta` section.  Python exceptions raised while walking an ill-shaped
state propagate as errors to the caller. -/
def generate_md_from_design_state (now : String) (design_state : PyJson) :
    Except PyError String := do
  let invalid ←
    if !pyTruthy design_state then
      pure true
    else do
      let c ← pyContains design_state "Paid"
      pure (!c)
  if invalid then
    return "# No design information available\n\nStart a conversation to build your PRD."
  let paid_data ← pyItem design_state "Paid"
  let mut lines : List String := []
  let hasMeta ← pyContains paid_data "meta"
  if hasMeta then
    let meta ← pyItem paid_data "meta"
    let title ← pyGet meta "title"
    if pyTruthy title then
      lines := lines ++ ["# " ++ pyStr (← pyItem meta "title"), ""]
    else
      lines := lines ++ ["# Product Requirements Document", ""]
    let mut metadata : List String := []
    let createdAt ← pyGet meta "createdAt"
    if pyTruthy createdAt then
      metadata := metadata ++ ["**Created:** " ++ pyStr (← pyItem meta "createdAt")]
    let updatedAt ← pyGet meta "updatedAt"
    if pyTruthy updatedAt then
      metadata := metadata ++ ["**Last Updated:** " ++ pyStr (← pyItem meta "updatedAt")]
    if !metadata.isEmpty then
      lines := lines ++ [String.intercalate " | " metadata, ""]
  else
    lines := lines ++ ["# Product Requirements Document", "",
      "**Generated:** " ++ now, ""]
  let hasProblem ← pyContains paid_data "problem"
  if hasProblem then
    let problem ← pyItem paid_data "problem"
    lines := lines ++ ["## 📌 Problem Statement", ""]
    let statement ← pyGet problem "statement"
    if pyTruthy statement then
      lines := lines ++ [pyStr (← pyItem problem "statement"), ""]
    let currentSolutions ← pyGet problem "currentSolutions"
    if pyTruthy currentSolutions then
      lines := lines ++ ["### Current Solutions", "",
        pyStr (← pyItem problem "currentSolutions"), ""]
    let painPoints ← pyGet problem "painPoints"
    if pyTruthy painPoints then
      let n ← pyLen (← pyItem problem "painPoints")
      if n > 0 then
        lines := lines ++ ["### Pain Points", ""]
        for point in (← pyIter (← pyItem problem "painPoints")) do
          lines := lines ++ ["- " ++ pyStr point]
        lines := lines ++ [""]
  let hasUsers ← pyContains paid_data "users"
  if hasUsers then
    let users ← pyItem paid_data "users"
    let hasPersonas ← pyContains users "personas"
    if hasPersonas then
      let personas ← pyItem users "personas"
      let n ← pyLen personas
      if n > 0 then
        lines := lines ++ ["## 👥 User Personas", ""]
        for persona in (← pyIter personas) do
          let name ← pyGet persona "name"
          if pyTruthy name then
            lines := lines ++ ["### Persona: " ++ pyStr (← pyItem persona "name"), ""]
            let demographics ← pyGet persona "demographics"
            if pyTruthy demographics then
              lines := lines ++ ["#### Demographics", "",
                pyStr (← pyItem persona "demographics"), ""]
            let behaviors ← pyGet persona "behaviors"
            if pyTruthy behaviors then
              lines := lines ++ ["#### Behaviors", "",
                pyStr (← pyItem persona "behaviors"), ""]
            let jobs ← pyGet persona "jobsToBeDone"
            if pyTruthy jobs then
              let jn ← pyLen (← pyItem persona "jobsToBeDone")
              if jn > 0 then
                lines := lines ++ ["#### Jobs to be Done", ""]
                for job in (← pyIter (← pyItem persona "jobsToBeDone")) do
                  lines := lines ++ ["- " ++ pyStr job]
                lines := lines ++ [""]
            let frustrations ← pyGet persona "frustrations"
            if pyTruthy frustrations then
              let fn ← pyLen (← pyItem persona "frustrations")
              if fn > 0 then
                lines := lines ++ ["#### Frustrations", ""]
                for frustration in (← pyIter (← pyItem persona "frustrations")) do
                  lines := lines ++ ["- " ++ pyStr frustration]
                lines := lines ++ [""]
  let hasVp ← pyContains paid_data "valueProposition"
  if hasVp then
    let vp ← pyItem paid_data "valueProposition"
    lines := lines ++ ["## 💡 Value Proposition", ""]
    let oneLiner ← pyGet vp "oneLiner"
    if pyTruthy oneLiner then
      lines := lines ++ ["> " ++ pyStr (← pyItem vp "oneLiner"), ""]
    let primaryBenefit ← pyGet vp "primaryBenefit"
    if pyTruthy primaryBenefit then
      lines := lines ++ ["### Primary Benefit", "",
        pyStr (← pyItem vp "primaryBenefit"), ""]
    let uniqueDifferentiators ← pyGet vp "uniqueDifferentiators"
    if pyTruthy uniqueDifferentiators then
      let un ← pyLen (← pyItem vp "uniqueDifferentiators")
      if un > 0 then
        lines := lines ++ ["### Unique Differentiators", ""]
        for diff in (← pyIter (← pyItem vp "uniqueDifferentiators")) do
          lines := lines ++ ["- " ++ pyStr diff]
        lines := lines ++ [""]
  let hasApproach ← pyContains paid_data "approach"
  if hasApproach then
    let approach ← pyItem paid_data "approach"
    lines := lines ++ ["## 🛠️ Approach", ""]
    let coreConcept ← pyGet approach "coreConcept"
    if pyTruthy coreConcept then
      lines := lines ++ ["### Core Concept", "",
        pyStr (← pyItem approach "coreConcept"), ""]
    let mvpFeatures ← pyGet approach "mvpFeatures"
    if pyTruthy mvpFeatures then
      let mn ← pyLen (← pyItem approach "mvpFeatures")
      if mn > 0 then
        lines := lines ++ ["### MVP Features", ""]
        for feature in (← pyIter (← pyItem approach "mvpFeatures")) do
          lines := lines ++ ["- " ++ pyStr feature]
        lines := lines ++ [""]
    let tech ← pyGet approach "technicalConsiderations"
    if pyTruthy tech then
      let tn ← pyLen (← pyItem approach "technicalConsiderations")
      if tn > 0 then
        lines := lines ++ ["### Technical Considerations", ""]
        for t in (← pyIter (← pyItem approach "technicalConsiderations")) do
          lines := lines ++ ["- " ++ pyStr t]
        lines := lines ++ [""]
  let hasUx ← pyContains paid_data "userExperience"
  if hasUx then
    let ux ← pyItem paid_data "userExperience"
    lines := lines ++ ["## 🖥️ User Experience", ""]
    let summary ← pyGet ux "summary"
    if pyTruthy summary then
      lines := lines ++ [pyStr (← pyItem ux "summary"), ""]
    let userFlows ← pyGet ux "userFlows"
    if pyTruthy userFlows then
      let fn ← pyLen (← pyItem ux "userFlows")
      if fn > 0 then
        lines := lines ++ ["### User Flows", ""]
        for flow in (← pyIter (← pyItem ux "userFlows")) do
          let flowName ← pyGet flow "flowName"
          if pyTruthy flowName then
            lines := lines ++ ["#### " ++ pyStr (← pyItem flow "flowName"), ""]
            let description ← pyGet flow "description"
            if pyTruthy description then
              lines := lines ++ [pyStr (← pyItem flow "description"), ""]
            let steps ← pyGet flow "steps"
            if pyTruthy steps then
              let sn ← pyLen (← pyItem flow "steps")
              if sn > 0 then
                lines := lines ++ ["**Steps:**", ""]
                for step in (← pyIter (← pyItem flow "steps")) do
                  let hasStep ← pyContains step "step"
                  let hasName ← pyContains step "name"
                  if hasStep && hasName then
                    let mut line := pyStr (← pyItem step "step") ++ ". **" ++
                      pyStr (← pyItem step "name") ++ "**"
                    let hasDescription ← pyContains step "description"
                    if hasDescription then
                      line := line ++ ": " ++ pyStr (← pyItem step "description")
                    lines := lines ++ [line]
                lines := lines ++ [""]
  return String.intercalate "\n" lines

/-- The modelled filesystem of the export command: a list of (path, content)
files. -/
def FS : Type := List (String × String)

/-- Writing a file (`open(path, "w")` then `write`): overwrite an existing
entry or append a new one. -/
def fsWrite (fs : FS) (path content : String) : FS :=
  let fsl : List (String × String) := fs
  if fsl.any (fun p => p.1 == path) then
    fsl.map (fun p => if p.1 == path then (p.1, content) else p)
  else
    fsl ++ [(path, content)]

/-- Embedding of export.py `save_prd_to_file`: generate the Markdown and
write it, reporting success with the path; any exception is caught and
reported as a failure with no write. -/
def save_prd_to_file (now : String) (design_state : PyJson) (file_path : String)
    (fs : FS) : (Bool × String) × FS :=
  match generate_md_from_design_state now design_state with
  | .ok md_content =>
    ((true, "PRD successfully saved to " ++ file_path), fsWrite fs file_path md_content)
  | .error e =>
    ((false, "Error saving PRD: " ++ pyErrStr e), fs)

/-- Embedding of `re.sub` with the filename pattern of export.py: every
character of the lowered title outside `\w`, `-` and `_` becomes an
underscore (ASCII word characters; the program handles ASCII titles). -/
def slugify (s : String) : String :=
  String.mk (s.toList.map (fun c =>
    let d := c.toLower
    if d.isAlphanum || d = '-' || d = '_' then d else '_'))

/-- Python `os.path.join` for the relative components the export command
builds. -/
def pyPathJoin (dir file : String) : String :=
  if dir.endsWith "/" then dir ++ file else dir ++ "/" ++ file

/-- Body of export.py `export_prd_from_session` inside its `try` block: the
guard on a usable latest design state, the filename derivation, the output
directory default (`cwd` stands for `os.getcwd()`), and the final save. -/
def exportBody (now cwd : String) (db : DB) (fs : FS) (session_id : String)
    (output_dir : Option String) : Except PyError ((Bool × String) × FS) := do
  match get_latest_design_state db session_id with
  | none =>
    return ((false, "No valid design state found for this session."), fs)
  | some design_state =>
    if !pyTruthy design_state then
      return ((false, "No valid design state found for this session."), fs)
    let hasPaid ← pyContains design_state "Paid"
    if !hasPaid then
      return ((false, "No valid design state found for this session."), fs)
    let paid ← pyItem design_state "Paid"
    let hasMeta ← pyContains paid "meta"
    let filename ←
      if hasMeta then do
        let meta ← pyItem paid "meta"
        let title ← pyGet meta "title"
        if pyTruthy title then
          match (← pyItem meta "title") with
          | .str s => pure (slugify s ++ ".md")
          | _ => Except.error (.attributeError "object has no attribute lower")
        else
          pure "product_requirements_document.md"
      else
        pure "product_requirements_document.md"
    let dir :=
      match output_dir with
      | none => cwd
      | some d => if d = "" then cwd else d
    let output_path := pyPathJoin dir filename
    return save_prd_to_file now design_state output_path fs

/-- Embedding of export.py `export_prd_from_session`: the body above with its
enclosing `try`/`except` that converts any exception into a failure message
and writes nothing. -/
def export_prd_from_session (now cwd : String) (db : DB) (fs : FS)
    (session_id : String) (output_dir : Option String) : (Bool × String) × FS :=
  match exportBody now cwd db fs session_id output_dir with
  | .ok r => r
  | .error e => ((false, "Error exporting PRD: " ++ pyErrStr e), fs)

/-- Scan of one segment of a format string: consumes the segment, returning
the scanner mode reached at its end together with the output produced for
the segment (in order).  This is the compositional counterpart of
`formatGo`, used to evaluate the long template piecewise. -/
def formatScan (subs : List (String × String)) :
    FmtMode → List Char → Except PyError (FmtMode × List Char)
  | m, [] => .ok (m, [])
  | .normal, c :: cs =>
    if c = lbrace then
      formatScan subs .sawLbrace cs
    else if c = rbrace then
      formatScan subs .sawRbrace cs
    else
      match formatScan subs .normal cs with
      | .error e => .error e
      | .ok (m2, o) => .ok (m2, c :: o)
  | .sawLbrace, c :: cs =>
    if c = lbrace then
      match formatScan subs .normal cs with
      | .error e => .error e
      | .ok (m2, o) => .ok (m2, lbrace :: o)
    else if c = rbrace then
      match List.lookup "" subs with
      | some v =>
        match formatScan subs .normal cs with
        | .error e => .error e
        | .ok (m2, o) => .ok (m2, v.toList ++ o)
      | none => .error (.keyError "")
    else
      formatScan subs (.field [c]) cs
  | .sawRbrace, c :: cs =>
    if c = rbrace then
      match formatScan subs .normal cs with
      | .error e => .error e
      | .ok (m2, o) => .ok (m2, rbrace :: o)
    else
      .error (.valueError "single brace encountered in format string")
  | .field nm, c :: cs =>
    if c = rbrace then
      match List.lookup (String.mk nm.reverse) subs with
      | some v =>
        match formatScan subs .normal cs with
        | .error e => .error e
        | .ok (m2, o) => .ok (m2, v.toList ++ o)
      | none => .error (.keyError (String.mk nm.reverse))
    else
      formatScan subs (.field (c :: nm)) cs

/-- Composition principle for the format loop: a run over `l1 ++ l2` first
scans `l1`, then continues from the mode it reached with the scanned output
pushed (reversed) onto the accumulator. -/
theorem formatGo_append_of_scan (subs : List (String × String)) :
    ∀ (l1 : List Char) (m m2 : FmtMode) (o1 : List Char),
      formatScan subs m l1 = .ok (m2, o1) →
      ∀ (l2 acc : List Char),
        formatGo subs m (l1 ++ l2) acc = formatGo subs m2 l2 (o1.reverse ++ acc) := by
  intro l1
  induction l1 with
  | nil =>
    intro m m2 o1 h l2 acc
    simp only [formatScan] at h
    cases h
    simp
  | cons c cs ih =>
    intro m m2 o1 h l2 acc
    cases m with
    | normal =>
      by_cases hc : c = lbrace
      · simp only [formatScan, if_pos hc] at h
        simp only [List.cons_append, List.append_eq, formatGo, if_pos hc]
        exact ih _ _ _ h l2 acc
      · by_cases hc2 : c = rbrace
        · simp only [formatScan, if_neg hc, if_pos hc2] at h
          simp only [List.cons_append, List.append_eq, formatGo, if_neg hc, if_pos hc2]
          exact ih _ _ _ h l2 acc
        · simp only [formatScan, if_neg hc, if_neg hc2] at h
          rcases hscan : formatScan subs .normal cs with e | ⟨m3, o⟩ <;> rw [hscan] at h
          · exact absurd h (by simp)
          · injection h with h1
            injection h1 with hm ho
            subst hm; subst ho
            simp only [List.cons_append, List.append_eq, formatGo, if_neg hc, if_neg hc2]
            rw [ih _ _ _ hscan l2 (c :: acc)]
            simp
    | sawLbrace =>
      by_cases hc : c = lbrace
      · simp only [formatScan, if_pos hc] at h
        rcases hscan : formatScan subs .normal cs with e | ⟨m3, o⟩ <;> rw [hscan] at h
        · exact absurd h (by simp)
        · injection h with h1
          injection h1 with hm ho
          subst hm; subst ho
          simp only [List.cons_append, List.append_eq, formatGo, if_pos hc]
          rw [ih _ _ _ hscan l2 (lbrace :: acc)]
          simp
      · by_cases hc2 : c = rbrace
        · simp only [formatScan, if_neg hc, if_pos hc2] at h
          rcases hlook : List.lookup "" subs with _ | v <;> rw [hlook] at h
          · exact absurd h (by simp)
          · rcases hscan : formatScan subs .normal cs with e | ⟨m3, o⟩ <;> rw [hscan] at h
            · exact absurd h (by simp)
            · injection h with h1
              injection h1 with hm ho
              subst hm; subst ho
              simp only [List.cons_append, List.append_eq, formatGo, if_neg hc, if_pos hc2, hlook]
              rw [ih _ _ _ hscan l2 (v.toList.reverse ++ acc)]
              simp
        · simp only [formatScan, if_neg hc, if_neg hc2] at h
          simp only [List.cons_append, List.append_eq, formatGo, if_neg hc, if_neg hc2]
          exact ih _ _ _ h l2 acc
    | sawRbrace =>
      by_cases hc : c = rbrace
      · simp only [formatScan, if_pos hc] at h
        rcases hscan : formatScan subs .normal cs with e | ⟨m3, o⟩ <;> rw [hscan] at h
        · exact absurd h (by simp)
        · injection h with h1
          injection h1 with hm ho
          subst hm; subst ho
          simp only [List.cons_append, List.append_eq, formatGo, if_pos hc]
          rw [ih _ _ _ hscan l2 (rbrace :: acc)]
          simp
      · simp only [formatScan, if_neg hc] at h
        exact absurd h (by simp)
    | field nm =>
      by_cases hc : c = rbrace
      · simp only [formatScan, if_pos hc] at h
        rcases hlook : List.lookup (String.mk nm.reverse) subs with _ | v <;> rw [hlook] at h
        · exact absurd h (by simp)
        · rcases hscan : formatScan subs .normal cs with e | ⟨m3, o⟩ <;> rw [hscan] at h
          · exact absurd h (by simp)
          · injection h with h1
            injection h1 with hm ho
            subst hm; subst ho
            simp only [List.cons_append, List.append_eq, formatGo, if_pos hc, hlook]
            rw [ih _ _ _ hscan l2 (v.toList.reverse ++ acc)]
            simp
      · simp only [formatScan, if_neg hc] at h
        simp only [List.cons_append, List.append_eq, formatGo, if_neg hc]
        exact ih _ _ _ h l2 acc

/-- Appending strings concatenates their character data. -/
theorem str_data_append (s t : String) : (s ++ t).data = s.data ++ t.data := rfl

/-- Finishing principle for the format loop: a whole input whose scan ends in
plain-text mode produces the accumulator followed by the scanned output. -/
theorem formatGo_of_scan (subs : List (String × String)) (l o : List Char)
    (m : FmtMode) (h : formatScan subs m l = .ok (.normal, o)) (acc : List Char) :
    formatGo subs m l acc = .ok (acc.reverse ++ o) := by
  have h2 := formatGo_append_of_scan subs l m .normal o h [] acc
  rw [List.append_nil] at h2
  rw [h2]
  simp [formatGo]

set_option maxRecDepth 8000 in
/-- Scan of template piece 1: plain text. -/
theorem formatScan_tplChunk1 (subs : List (String × String)) :
    formatScan subs .normal tplChunk1.data = .ok (.normal, tplChunk1.data) := rfl

set_option maxRecDepth 8000 in
/-- Scan of template piece 2: plain text. -/
theorem formatScan_tplChunk2 (subs : List (String × String)) :
    formatScan subs .normal tplChunk2.data = .ok (.normal, tplChunk2.data) := rfl

set_option maxRecDepth 8000 in
/-- Scan of template piece 3: plain text. -/
theorem formatScan_tplChunk3 (subs : List (String × String)) :
    formatScan subs .normal tplChunk3.data = .ok (.normal, tplChunk3.data) := rfl

set_option maxRecDepth 8000 in
/-- Scan of template piece 4: plain text. -/
theorem formatScan_tplChunk4 (subs : List (String × String)) :
    formatScan subs .normal tplChunk4.data = .ok (.normal, tplChunk4.data) := rfl

set_option maxRecDepth 8000 in
/-- Scan of template piece 5: plain text. -/
theorem formatScan_tplChunk5 (subs : List (String × String)) :
    formatScan subs .normal tplChunk5.data = .ok (.normal, tplChunk5.data) := rfl

set_option maxRecDepth 8000 in
/-- Scan of template piece 6: plain text. -/
theorem formatScan_tplChunk6 (subs : List (String × String)) :
    formatScan subs .normal tplChunk6.data = .ok (.normal, tplChunk6.data) := rfl

set_option maxRecDepth 8000 in
/-- Scan of template piece 7: plain text. -/
theorem formatScan_tplChunk7 (subs : List (String × String)) :
    formatScan subs .normal tplChunk7.data = .ok (.normal, tplChunk7.data) := rfl

set_option maxRecDepth 8000 in
/-- Scan of template piece 8: plain text. -/
theorem formatScan_tplChunk8 (subs : List (String × String)) :
    formatScan subs .normal tplChunk8.data = .ok (.normal, tplChunk8.data) := rfl

set_option maxRecDepth 8000 in
/-- Scan of the single replacement field of the template: it substitutes the
`design_state_json` keyword argument and never consults the
`custom_instructions` one. -/
theorem formatScan_tplField (a x : String) :
    formatScan [("design_state_json", a), ("custom_instructions", x)] .normal
      tplField.data = .ok (.normal, a.data ++ []) := rfl

/-- Scan of the template text after the field: plain text. -/
theorem formatScan_tplPost (subs : List (String × String)) :
    formatScan subs .normal tplPost.data = .ok (.normal, tplPost.data) := rfl

/-- Characterization of the system prompt built by
`_get_system_instructions`: it is exactly the template text with the
design-state JSON substituted for the single replacement field.  In
particular it depends only on the design state: the custom instructions read
from the database never enter the result, because the template has no
matching replacement field and `str.format` ignores unused keyword
arguments. -/
theorem get_system_instructions_spec (dumps : PyJson → String) (db : DB) (sid : String) :
    get_system_instructions dumps db sid =
      .ok (TPL_PREFIX ++ dumps (get_current_design_state db sid) ++ tplPost) := by
  show (fun l => String.mk l) <$>
      formatGo [("design_state_json", dumps (get_current_design_state db sid)),
        ("custom_instructions", pyOrString (get_latest_instructions db sid) "")]
        .normal DEFAULT_INSTRUCTIONS_TEMPLATE.toList [] = _
  have hdata : DEFAULT_INSTRUCTIONS_TEMPLATE.toList =
      tplChunk1.data ++ (tplChunk2.data ++ (tplChunk3.data ++ (tplChunk4.data ++
        (tplChunk5.data ++ (tplChunk6.data ++ (tplChunk7.data ++ (tplChunk8.data ++
          (tplField.data ++ tplPost.data)))))))) := by
    simp [DEFAULT_INSTRUCTIONS_TEMPLATE, TPL_PREFIX, String.toList, str_data_append,
      List.append_assoc]
  rw [hdata]
  rw [formatGo_append_of_scan _ _ _ _ _ (formatScan_tplChunk1 _)]
  rw [formatGo_append_of_scan _ _ _ _ _ (formatScan_tplChunk2 _)]
  rw [formatGo_append_of_scan _ _ _ _ _ (formatScan_tplChunk3 _)]
  rw [formatGo_append_of_scan _ _ _ _ _ (formatScan_tplChunk4 _)]
  rw [formatGo_append_of_scan _ _ _ _ _ (formatScan_tplChunk5 _)]
  rw [formatGo_append_of_scan _ _ _ _ _ (formatScan_tplChunk6 _)]
  rw [formatGo_append_of_scan _ _ _ _ _ (formatScan_tplChunk7 _)]
  rw [formatGo_append_of_scan _ _ _ _ _ (formatScan_tplChunk8 _)]
  rw [formatGo_append_of_scan _ _ _ _ _ (formatScan_tplField _ _)]
  rw [formatGo_of_scan _ _ _ _ (formatScan_tplPost _)]
  have hrhs : TPL_PREFIX ++ dumps (get_current_design_state db sid) ++ tplPost =
      String.mk (TPL_PREFIX.data ++ (dumps (get_current_design_state db sid)).data ++
        tplPost.data) := rfl
  rw [hrhs]
  simp [TPL_PREFIX, str_data_append, List.append_assoc, List.reverse_append,
    List.reverse_reverse, List.append_nil, String.ext_iff]

/-- Membership transfer along a successful prefix test. -/
theorem mem_of_listStartsWith {pat l : List Char} (h : listStartsWith pat l = true)
    {a : Char} (ha : a ∈ pat) : a ∈ l := by
  unfold listStartsWith at h
  rw [decide_eq_true_eq] at h
  exact List.mem_of_mem_take (h ▸ ha)

/-- A pattern containing a character that a list avoids is never a
contiguous sublist of it. -/
theorem listHasSub_eq_false_of_char_free {z : Char} {pat : List Char} (hz : z ∈ pat) :
    ∀ {l : List Char}, (∀ c ∈ l, c ≠ z) → listHasSub pat l = false := by
  intro l
  induction l with
  | nil =>
    intro _
    simp only [listHasSub]
    cases pat with
    | nil => exact absurd hz (List.not_mem_nil z)
    | cons p ps => rfl
  | cons c cs ih =>
    intro hfree
    simp only [listHasSub, Bool.or_eq_false_iff]
    constructor
    · by_contra hst
      rw [Bool.not_eq_false] at hst
      exact absurd rfl (hfree z (mem_of_listStartsWith hst hz))
    · exact ih (fun d hd => hfree d (List.mem_cons_of_mem c hd))

set_option maxRecDepth 8000 in
/-- Character-level fact: template piece 1 contains no capital Z. -/
theorem tplChunk1_z_free : tplChunk1.data.all (fun c => !(c == 'Z')) = true := rfl

set_option maxRecDepth 8000 in
/-- Character-level fact: template piece 2 contains no capital Z. -/
theorem tplChunk2_z_free : tplChunk2.data.all (fun c => !(c == 'Z')) = true := rfl

set_option maxRecDepth 8000 in
/-- Character-level fact: template piece 3 contains no capital Z. -/
theorem tplChunk3_z_free : tplChunk3.data.all (fun c => !(c == 'Z')) = true := rfl

set_option maxRecDepth 8000 in
/-- Character-level fact: template piece 4 contains no capital Z. -/
theorem tplChunk4_z_free : tplChunk4.data.all (fun c => !(c == 'Z')) = true := rfl

set_option maxRecDepth 8000 in
/-- Character-level fact: template piece 5 contains no capital Z. -/
theorem tplChunk5_z_free : tplChunk5.data.all (fun c => !(c == 'Z')) = true := rfl

set_option maxRecDepth 8000 in
/-- Character-level fact: template piece 6 contains no capital Z. -/
theorem tplChunk6_z_free : tplChunk6.data.all (fun c => !(c == 'Z')) = true := rfl

set_option maxRecDepth 8000 in
/-- Character-level fact: template piece 7 contains no capital Z. -/
theorem tplChunk7_z_free : tplChunk7.data.all (fun c => !(c == 'Z')) = true := rfl

set_option maxRecDepth 8000 in
/-- Character-level fact: template piece 8 contains no capital Z. -/
theorem tplChunk8_z_free : tplChunk8.data.all (fun c => !(c == 'Z')) = true := rfl

/-- Character-level fact: the prompt built from the template around a
Z-free design-state rendering contains no capital Z at all. -/
theorem prompt_z_free :
    ∀ c ∈ (TPL_PREFIX ++ "[]" ++ tplPost).data, c ≠ 'Z' := by
  intro c hc
  have hall : (TPL_PREFIX ++ "[]" ++ tplPost).data.all (fun c => !(c == 'Z')) = true := by
    simp only [TPL_PREFIX, str_data_append, List.all_append]
    rw [tplChunk1_z_free, tplChunk2_z_free, tplChunk3_z_free, tplChunk4_z_free,
      tplChunk5_z_free, tplChunk6_z_free, tplChunk7_z_free, tplChunk8_z_free]
    rfl
  have := List.all_eq_true.mp hall c hc
  simpa using this

/-- C1: the turn buffer does not persist one space-joined message per turn
for agent turns.  Evaluating the fragment stream (user "Hi"; agent "Hello";
agent "world"; user "ok") persists the user turn correctly, but for the
agent turn only the first fragment "Hello" is persisted (at turn start);
the accumulated "Hello world" stays in the buffer and is never persisted
once the user speaks again, contradicting the claimed space-joined message
"Hello world" and the source comment promising to update the saved row. -/
theorem c1_agent_turn_fragments_lost :
    runEvents initBridge [BridgeEvent.userFrag "Hi", BridgeEvent.agentFrag "Hello",
      BridgeEvent.agentFrag "world", BridgeEvent.userFrag "ok"] =
    (⟨"ok", "Hello world", some Speaker.user⟩,
      [(Speaker.user, "Hi"), (Speaker.agent, "Hello")]) := by decide

/-- C2: a design-state extraction reply holding no parseable JSON (no
fenced block matched and the raw text does not parse) makes `_extract_json`
propagate `None`, and `process` returns the current state with the database
— hence the stored latest snapshot — unchanged. -/
theorem c2_parse_failure_leaves_store_untouched
    (loads : String → Option PyJson) (design_response instruction_response : String)
    (db : DB) (session_id : String)
    (hfence : regexFencedGroup design_response = none)
    (hraw : loads design_response = none) :
    extract_json loads design_response = none ∧
    DesignAgent_process loads design_response instruction_response db session_id =
      .ok (pyOrJson (get_latest_design_state db session_id) DEFAULT_DESIGN_STATE, db) := by
  have hex : extract_json loads design_response = none := by
    unfold extract_json
    rw [hfence]
    exact hraw
  refine ⟨hex, ?_⟩
  unfold DesignAgent_process
  rw [hex]

/-- C2 witness: a plain prose reply with a parser that rejects everything,
on a session holding a prior snapshot; the call returns that snapshot and
the store is unchanged. -/
theorem c2_witness :
    (regexFencedGroup "The user wants a todo app." = none ∧
      (fun (_ : String) => (none : Option PyJson)) "The user wants a todo app." = none) ∧
    (extract_json (fun _ => none) "The user wants a todo app." = none ∧
      DesignAgent_process (fun _ => none) "The user wants a todo app." "NO_CHANGE: ok"
        ⟨["s1"], [⟨"s1", PyJson.str "prior", some "keep"⟩], []⟩ "s1" =
        .ok (pyOrJson (get_latest_design_state
            ⟨["s1"], [⟨"s1", PyJson.str "prior", some "keep"⟩], []⟩ "s1")
          DEFAULT_DESIGN_STATE,
          ⟨["s1"], [⟨"s1", PyJson.str "prior", some "keep"⟩], []⟩)) :=
  ⟨⟨rfl, rfl⟩, c2_parse_failure_leaves_store_untouched _ _ _ _ _ rfl rfl⟩

/-- C3: with a valid fenced json reply the parse succeeds, but the save step
calls `update_design_state` with three positional arguments against its
two-parameter definition, so `process` raises `TypeError` and no new
snapshot is written. -/
theorem c3_snapshot_write_raises :
    extract_json
      (fun s => if s = "\x7b\"a\": 1\x7d" then some (PyJson.obj [("a", PyJson.num 1)]) else none)
      "```json\n\x7b\"a\": 1\x7d\n```" = some (PyJson.obj [("a", PyJson.num 1)]) ∧
    DesignAgent_process
      (fun s => if s = "\x7b\"a\": 1\x7d" then some (PyJson.obj [("a", PyJson.num 1)]) else none)
      "```json\n\x7b\"a\": 1\x7d\n```" "CUSTOM GUIDANCE:\n- ask about the users"
      ⟨["s1"], [⟨"s1", PyJson.str "old", some "old guidance"⟩], []⟩ "s1" =
      .error (.typeError "update_design_state takes 2 positional arguments but 3 were given") :=
  ⟨rfl, rfl⟩

/-- C4 counterexample: stopping with a pending user turn persists nothing.
After the single fragment user "Hi" the user buffer is non-empty and the
user spoke last, yet `stop` flushes no message, refuting the claim that a
pending buffer is flushed regardless of whose turn is open. -/
theorem c4_cex_user_buffer_dropped_on_stop :
    ((runEvents initBridge [BridgeEvent.userFrag "Hi"]).1.current_user_transcript = "Hi" ∧
      (runEvents initBridge [BridgeEvent.userFrag "Hi"]).1.last_speaker = some Speaker.user) ∧
    (stopBridge (runEvents initBridge [BridgeEvent.userFrag "Hi"]).1).2 = [] := by
  decide

/-- C4 (amended): on stop only a pending agent buffer is flushed — when the
agent spoke last and its buffer is non-empty the accumulated response is
persisted, while a pending user buffer is discarded. -/
theorem c4_stop_flushes_only_agent_buffer (st : BridgeState) :
    (st.last_speaker = some Speaker.agent → st.current_agent_response ≠ "" →
      (stopBridge st).2 = [(Speaker.agent, st.current_agent_response)]) ∧
    (st.last_speaker = some Speaker.user → (stopBridge st).2 = []) := by
  constructor
  · intro h1 h2
    simp [stopBridge, h1, h2]
  · intro h1
    simp [stopBridge, h1]

/-- C4 witness: concrete stop calls — a pending agent response is flushed
and a pending user question is dropped. -/
theorem c4_witness :
    (stopBridge ⟨"", "pending answer", some Speaker.agent⟩).2 =
      [(Speaker.agent, "pending answer")] ∧
    (stopBridge ⟨"pending question", "", some Speaker.user⟩).2 = [] :=
  ⟨(c4_stop_flushes_only_agent_buffer ⟨"", "pending answer", some Speaker.agent⟩).1 rfl
      (by decide),
    (c4_stop_flushes_only_agent_buffer ⟨"pending question", "", some Speaker.user⟩).2 rfl⟩

/-- C5 counterexample: a speaker change from agent to user flushes nothing.
After user "Hi"; agent "A"; agent "B" the agent spoke last; the next user
fragment starts a new user turn yet persists no message for the previous
speaker. -/
theorem c5_cex_agent_to_user_change_flushes_nothing :
    ((runEvents initBridge [BridgeEvent.userFrag "Hi", BridgeEvent.agentFrag "A",
        BridgeEvent.agentFrag "B"]).1.last_speaker = some Speaker.agent) ∧
    (handleUserTranscript (runEvents initBridge [BridgeEvent.userFrag "Hi",
        BridgeEvent.agentFrag "A", BridgeEvent.agentFrag "B"]).1 "ok").2 = [] ∧
    (handleUserTranscript (runEvents initBridge [BridgeEvent.userFrag "Hi",
        BridgeEvent.agentFrag "A", BridgeEvent.agentFrag "B"]).1 "ok").1.last_speaker =
      some Speaker.user := by
  decide

/-- C5 (amended): a user-to-agent speaker change persists exactly one
message for the previous speaker (the completed user buffer) before the
agent buffer starts; an agent-to-user change persists nothing, the agent
message having already been persisted when the agent turn began. -/
theorem c5_flush_on_speaker_change (st : BridgeState) (r t : String) :
    (st.last_speaker = some Speaker.user →
      ((handleAgentResponse st r).2.filter (fun m => m.1 == Speaker.user) =
          [(Speaker.user, st.current_user_transcript)] ∧
        (handleAgentResponse st r).1.last_speaker = some Speaker.agent)) ∧
    (st.last_speaker = some Speaker.agent → (handleUserTranscript st t).2 = []) := by
  constructor
  · intro h
    have hfix : handleAgentResponse st r =
        ({ st with current_agent_response := r, last_speaker := some Speaker.agent },
          [(Speaker.user, st.current_user_transcript), (Speaker.agent, r)]) := by
      unfold handleAgentResponse
      rw [if_pos h]
    rw [hfix]
    exact ⟨rfl, rfl⟩
  · intro h
    unfold handleUserTranscript
    split <;> rfl

/-- C5 witness: a concrete user-to-agent change flushing the user turn, and
a concrete agent-to-user change flushing nothing. -/
theorem c5_witness :
    ((handleAgentResponse ⟨"what about export", "", some Speaker.user⟩
          "Good question").2.filter (fun m => m.1 == Speaker.user) =
        [(Speaker.user, "what about export")] ∧
      (handleAgentResponse ⟨"what about export", "", some Speaker.user⟩
          "Good question").1.last_speaker = some Speaker.agent) ∧
    (handleUserTranscript ⟨"", "prior answer", some Speaker.agent⟩ "next question").2 = [] :=
  ⟨(c5_flush_on_speaker_change ⟨"what about export", "", some Speaker.user⟩
      "Good question" "next question").1 rfl,
    (c5_flush_on_speaker_change ⟨"", "prior answer", some Speaker.agent⟩
      "Good question" "next question").2 rfl⟩

/-- C6: the sentinel handling never reaches the store.  With a valid design
JSON reply, `process` raises `TypeError` at the three-argument save call
both when the instruction reply begins with the NO_CHANGE sentinel and when
it carries new guidance, so no instruction text is ever stored (and a
non-sentinel reply in particular never becomes the stored instructions). -/
theorem c6_instruction_store_never_written :
    DesignAgent_process
      (fun s => if s = "\x7b\x7d" then some (PyJson.obj []) else none)
      "```json\n\x7b\x7d\n```" "NO_CHANGE: design state is complete"
      ⟨["s2"], [⟨"s2", PyJson.obj [("k", PyJson.str "v")], some "PREV"⟩], []⟩ "s2" =
      .error (.typeError "update_design_state takes 2 positional arguments but 3 were given") ∧
    DesignAgent_process
      (fun s => if s = "\x7b\x7d" then some (PyJson.obj []) else none)
      "```json\n\x7b\x7d\n```" "CUSTOM GUIDANCE:\n- move on to value proposition"
      ⟨["s2"], [⟨"s2", PyJson.obj [("k", PyJson.str "v")], some "PREV"⟩], []⟩ "s2" =
      .error (.typeError "update_design_state takes 2 positional arguments but 3 were given") :=
  ⟨rfl, rfl⟩

set_option maxRecDepth 2000 in
/-- C7: stored custom guidance never reaches the system prompt.  Conjunct 1:
for every database the prompt handed to the live bridge equals the template
prefix, the design-state JSON, and the template suffix — it depends only on
the design state, because the template has no custom-instructions
replacement field and `str.format` drops unused keyword arguments.
Conjunct 2: a concrete session stores the non-empty guidance "ZZZ", yet
the prompt built over a Z-free JSON rendering does not contain it,
contradicting the claim (and the docstring of `_get_system_instructions`,
which promises to combine the custom instructions). -/
theorem c7_custom_guidance_never_in_prompt :
    (∀ (dumps : PyJson → String) (db : DB) (sid : String),
      get_system_instructions dumps db sid =
        .ok (TPL_PREFIX ++ dumps (get_current_design_state db sid) ++ tplPost)) ∧
    (get_latest_instructions
        ⟨["s1"], [⟨"s1", PyJson.obj [("a", PyJson.num 1)], some "ZZZ"⟩], []⟩ "s1" =
      some "ZZZ" ∧
    (get_system_instructions (fun _ => "[]")
        ⟨["s1"], [⟨"s1", PyJson.obj [("a", PyJson.num 1)], some "ZZZ"⟩], []⟩ "s1").map
      (fun p => containsStr p "ZZZ") = .ok false) := by
  refine ⟨get_system_instructions_spec, rfl, ?_⟩
  have h1 := get_system_instructions_spec (fun _ => "[]")
    ⟨["s1"], [⟨"s1", PyJson.obj [("a", PyJson.num 1)], some "ZZZ"⟩], []⟩ "s1"
  have hsub : containsStr (TPL_PREFIX ++ "[]" ++ tplPost) "ZZZ" = false :=
    listHasSub_eq_false_of_char_free (z := 'Z') (by decide) prompt_z_free
  have h2 : (Except.ok (TPL_PREFIX ++ "[]" ++ tplPost) : Except PyError String).map
      (fun p => containsStr p "ZZZ") = Except.ok false := by
    show Except.ok (containsStr (TPL_PREFIX ++ "[]" ++ tplPost) "ZZZ") = Except.ok false
    rw [hsub]
  rw [h1]
  exact h2

/-- Helper: a key absent from an association list defeats the corresponding
key test. -/
theorem any_key_eq_false_of_lookup_none {k : String} :
    ∀ {fields : List (String × PyJson)}, List.lookup k fields = none →
      fields.any (fun p => p.1 == k) = false := by
  intro fields
  induction fields with
  | nil => intro _; rfl
  | cons p ps ih =>
    intro h
    simp only [List.lookup] at h
    cases hb : k == p.1 with
    | true => rw [hb] at h; exact absurd h (by simp)
    | false =>
      rw [hb] at h
      have hb2 : (p.1 == k) = false := by
        rw [beq_eq_false_iff_ne] at hb ⊢
        exact fun he => hb he.symm
      simp only [List.any_cons, hb2, Bool.false_or]
      exact ih h

/-- C8: exporting a session with no usable design state fails cleanly.
When the latest design state is absent (unknown session or no snapshots),
falsy, or an object without the "Paid" key, the export returns a failure
result with a message and leaves the filesystem unchanged. -/
theorem c8_export_without_state_writes_nothing
    (now cwd : String) (db : DB) (fs : FS) (session_id : String)
    (output_dir : Option String)
    (h : get_latest_design_state db session_id = none ∨
      (∃ j, get_latest_design_state db session_id = some j ∧ pyTruthy j = false) ∨
      (∃ fields, get_latest_design_state db session_id = some (PyJson.obj fields) ∧
        List.lookup "Paid" fields = none)) :
    export_prd_from_session now cwd db fs session_id output_dir =
      ((false, "No valid design state found for this session."), fs) := by
  unfold export_prd_from_session exportBody
  rcases h with h | ⟨j, hj, hfalsy⟩ | ⟨fields, hj, hlook⟩
  · rw [h]
    rfl
  · rw [hj]
    show (match (if (!pyTruthy j) = true then _ else _ : Except PyError ((Bool × String) × FS)) with
      | Except.ok r => r
      | Except.error e => ((false, "Error exporting PRD: " ++ pyErrStr e), fs)) = _
    rw [hfalsy]
    rfl
  · rw [hj]
    by_cases ht : pyTruthy (PyJson.obj fields)
    · have hcont : pyContains (PyJson.obj fields) "Paid" = Except.ok false := by
        simp [pyContains, any_key_eq_false_of_lookup_none hlook]
      simp only [ht, hcont]
      rfl
    · rw [Bool.not_eq_true] at ht
      simp only [ht]
      rfl

/-- C8 witness: exporting a session that exists but has no snapshots fails
with the message and does not touch an existing file. -/
theorem c8_witness :
    get_latest_design_state ⟨["empty-session"], [], []⟩ "empty-session" = none ∧
    export_prd_from_session "2025-01-01 00:00:00" "/out" ⟨["empty-session"], [], []⟩
      [("note.md", "keep")] "empty-session" none =
      ((false, "No valid design state found for this session."), [("note.md", "keep")]) :=
  ⟨rfl, c8_export_without_state_writes_nothing _ _ _ _ _ _ (Or.inl rfl)⟩

/-- C9: snapshot and message writes enforce referential integrity.  Writing
to a non-existent session raises `ValueError` (no session is silently
created), and successful writes preserve the invariant that every stored
snapshot and message belongs to an existing session. -/
theorem c9_referential_integrity
    (db : DB) (session_id : String) (state : PyJson) (speaker : Speaker) (message : String)
    (h : get_session db session_id = false) :
    update_design_state db session_id state =
      .error (.valueError ("Session with ID " ++ session_id ++ " does not exist")) ∧
    add_conversation_message db session_id speaker message =
      .error (.valueError ("Session with ID " ++ session_id ++ " does not exist")) ∧
    (∀ (db2 : DB) (sid2 : String) (st2 : PyJson), db.wf →
      update_design_state db sid2 st2 = .ok db2 → db2.wf) ∧
    (∀ (db2 : DB) (sid2 : String) (sp2 : Speaker) (m2 : String), db.wf →
      add_conversation_message db sid2 sp2 m2 = .ok db2 → db2.wf) := by
  refine ⟨?_, ?_, ?_, ?_⟩
  · unfold update_design_state
    rw [h]
    rfl
  · unfold add_conversation_message
    rw [h]
    rfl
  · intro db2 sid2 st2 hwf hok
    unfold update_design_state at hok
    by_cases hs : get_session db sid2
    · rw [if_pos hs] at hok
      injection hok with hdb
      subst hdb
      refine ⟨?_, ?_⟩
      · intro rec hrec
        rcases List.mem_append.mp hrec with hold | hnew
        · exact hwf.1 rec hold
        · rcases List.mem_singleton.mp hnew with rfl
          exact (List.elem_iff).mp hs
      · intro m hm
        exact hwf.2 m hm
    · rw [if_neg hs] at hok
      exact absurd hok (by simp)
  · intro db2 sid2 sp2 m2 hwf hok
    unfold add_conversation_message at hok
    by_cases hs : get_session db sid2
    · rw [if_pos hs] at hok
      injection hok with hdb
      subst hdb
      refine ⟨?_, ?_⟩
      · intro rec hrec
        exact hwf.1 rec hrec
      · intro m hm
        rcases List.mem_append.mp hm with hold | hnew
        · exact hwf.2 m hold
        · rcases List.mem_singleton.mp hnew with rfl
          exact (List.elem_iff).mp hs
    · rw [if_neg hs] at hok
      exact absurd hok (by simp)

/-- C9 witness: writing a snapshot or a message against an unknown session
id raises the explicit error. -/
theorem c9_witness :
    get_session ⟨["a"], [], []⟩ "ghost" = false ∧
    update_design_state ⟨["a"], [], []⟩ "ghost" (PyJson.obj []) =
      .error (.valueError "Session with ID ghost does not exist") ∧
    add_conversation_message ⟨["a"], [], []⟩ "ghost" Speaker.user "hello" =
      .error (.valueError "Session with ID ghost does not exist") :=
  ⟨rfl,
    (c9_referential_integrity ⟨["a"], [], []⟩ "ghost" (PyJson.obj []) Speaker.user
      "hello" rfl).1,
    (c9_referential_integrity ⟨["a"], [], []⟩ "ghost" (PyJson.obj []) Speaker.user
      "hello" rfl).2.1⟩

/-- C10: the design agent persistence step cannot complete.  The module
imports `get_latest_instructions`, which the database package does not
export; the save call passes three positional arguments to the
two-parameter `update_design_state`, which always raises `TypeError`
without touching the store; hence `process` errors on every reply whose
JSON parses. -/
theorem c10_save_step_never_succeeds :
    ("get_latest_instructions" ∈ design_agent_database_imports ∧
      "get_latest_instructions" ∉ paid_database_exports) ∧
    (design_agent_save_arg_count = 3 ∧ update_design_state_param_count = 2) ∧
    (∀ (db : DB) (session_id : String) (state : PyJson) (instructions : String),
      update_design_state_call3 db session_id state instructions =
        .error (.typeError "update_design_state takes 2 positional arguments but 3 were given")) ∧
    (∀ (loads : String → Option PyJson) (dR iR : String) (db : DB) (sid : String)
      (st : PyJson), extract_json loads dR = some st →
      DesignAgent_process loads dR iR db sid =
        .error (.typeError "update_design_state takes 2 positional arguments but 3 were given")) := by
  refine ⟨⟨by decide, by decide⟩, ⟨rfl, rfl⟩, fun db sid st instr => rfl, ?_⟩
  intro loads dR iR db sid st hex
  unfold DesignAgent_process
  rw [hex]
  rfl

/-- C10 witness: a concrete parsable reply on which the save step raises. -/
theorem c10_witness :
    extract_json (fun s => if s = "\x7b\x7d" then some (PyJson.obj []) else none)
      "```json\n\x7b\x7d\n```" = some (PyJson.obj []) ∧
    DesignAgent_process (fun s => if s = "\x7b\x7d" then some (PyJson.obj []) else none)
      "```json\n\x7b\x7d\n```" "guidance text" ⟨["w"], [], []⟩ "w" =
      .error (.typeError "update_design_state takes 2 positional arguments but 3 were given") :=
  ⟨rfl,
    c10_save_step_never_succeeds.2.2.2
      (fun s => if s = "\x7b\x7d" then some (PyJson.obj []) else none)
      "```json\n\x7b\x7d\n```" "guidance text" ⟨["w"], [], []⟩ "w" (PyJson.obj []) rfl⟩
